import Mathlib

/-!
Shallow embedding of the real-time game-state engine of an AR
space-invaders game: the alien-formation controller (two historical
variants of AlienGrid), the projectile/collision subsystem
(ShootingSystem), the HUD scoring/combo state, and the central frame
loop (GameManager).

Conventions of the embedding:
* geometry and speeds are exact rationals (ℚ); the JS floats 0.015,
  1.02, 0.3, ... are written 3/200, 51/50, 3/10, ...;
* timestamps (Date.now() values) are integers in milliseconds;
* `Math.sin` is an uninterpreted parameter `sinQ : ℚ → ℚ` threaded
  through the cosmetic wiggle pass;
* `Math.random()` wiggle offsets are a parameter `wo : ℕ → ℕ → ℚ`;
* mutation of JS objects becomes explicit state passing; an alien
  object's identity is its immutable (gridRow, gridCol) pair, a target
  object's identity is a numeric id.
-/

/-- Rational 3-vector standing in for THREE.Vector3. -/
structure Vec3 where
  x : ℚ
  y : ℚ
  z : ℚ
deriving DecidableEq, Repr

namespace Vec3

/-- Componentwise addition (Vector3.add). -/
def add (a b : Vec3) : Vec3 := ⟨a.x + b.x, a.y + b.y, a.z + b.z⟩

/-- Scalar multiplication (Vector3.multiplyScalar). -/
def scale (k : ℚ) (a : Vec3) : Vec3 := ⟨k * a.x, k * a.y, k * a.z⟩

/-- Squared Euclidean distance.  The source compares
`a.distanceTo(b) < r`; over nonnegative radii this is equivalent to
`distSq a b < r^2`, which avoids the square root. -/
def distSq (a b : Vec3) : ℚ :=
  (a.x - b.x) ^ 2 + (a.y - b.y) ^ 2 + (a.z - b.z) ^ 2

end Vec3

namespace ShootingSystem

/-- `this.cooldown = 200` ms between shots. -/
def cooldown : ℤ := 200

/-- `this.projectileSpeed = 0.5`. -/
def projectileSpeed : ℚ := 1/2

/-- `this.projectileLifetime = 2000` ms. -/
def projectileLifetime : ℤ := 2000

/-- `const hitRadius = 0.5` in `update`. -/
def hitRadius : ℚ := 1/2

/-- A projectile: position, fixed travel direction (`userData.direction`),
creation timestamp (`userData.createdAt`) and the active flag. -/
structure Projectile where
  pos : Vec3
  dir : Vec3
  createdAt : ℤ
  isActive : Bool
deriving DecidableEq, Repr

/-- A collision target as seen by the shooting system: the alien
object's identity, its current world position
(`target.getWorldPosition`) and its `userData.isAlive` flag.  Nothing
in `ShootingSystem.update` mutates a target, so a target's fields are
constant throughout one update call. -/
structure Target where
  id : ℕ
  worldPos : Vec3
  isAlive : Bool
deriving DecidableEq, Repr

/-- The shooting system's mutable state: `this.lastShotTime` and
`this.projectiles` in array order. -/
structure ShootState where
  lastShotTime : ℤ
  projectiles : List Projectile
deriving DecidableEq, Repr

/-- Initial state from the constructor: `lastShotTime = 0`, no
projectiles. -/
def initial : ShootState := { lastShotTime := 0, projectiles := [] }

/-- `shoot()`.  `camPos`/`camDir` are the camera position and the
camera-forward vector ((0,0,-1) rotated by the camera quaternion),
supplied by the viewpoint provider.  If `now - lastShotTime <
cooldown` it returns false and changes nothing; otherwise it records
the timestamp and appends a projectile at
`camPos + 0.5·camDir` lowered by 0.2 in y, travelling along `camDir`.
The mesh/glow/crosshair work is purely visual and carries no state. -/
def shoot (s : ShootState) (now : ℤ) (camPos camDir : Vec3) :
    Bool × ShootState :=
  if now - s.lastShotTime < cooldown then (false, s)
  else
    let pos0 := camPos.add (camDir.scale (1/2))
    let pos : Vec3 := { pos0 with y := pos0.y - 1/5 }
    let p : Projectile :=
      { pos := pos, dir := camDir, createdAt := now, isActive := true }
    (true, { lastShotTime := now, projectiles := s.projectiles ++ [p] })

/-- One frame of projectile motion:
`position.add(direction.multiplyScalar(projectileSpeed))`.  Note that
`deltaTime` does not appear: the step is a fixed per-frame distance. -/
def moveProjectile (p : Projectile) : Projectile :=
  { p with pos := p.pos.add (p.dir.scale projectileSpeed) }

/-- First target of the list that is alive and within the hit radius
of `pos` (the inner `for (const target of targets)` loop with its
`break`). -/
def firstHit (targets : List Target) (pos : Vec3) : Option Target :=
  targets.find? fun t =>
    t.isAlive && decide (Vec3.distSq pos t.worldPos < hitRadius ^ 2)

/-- The body of `update`'s projectile loop.  The source iterates the
array from the last index down to 0, splicing out removed projectiles
(which never disturbs the not-yet-visited lower indices) and pushing
hits in visit order; this recursion processes the tail (the higher
indices) first and appends the head's hit last, reproducing both the
surviving-projectile order and the hit order exactly.  Per projectile:
inactive ones are skipped (`continue`) but stay in the array; active
ones move, are discarded when `now - createdAt > projectileLifetime`,
and otherwise are tested against the targets, a first qualifying
target deactivating and discarding the projectile. -/
def updateGo (now : ℤ) (targets : List Target) :
    List Projectile → List Projectile × List Target
  | [] => ([], [])
  | p :: rest =>
    let r := updateGo now targets rest
    if !p.isActive then (p :: r.1, r.2)
    else
      let moved := moveProjectile p
      if projectileLifetime < now - p.createdAt then (r.1, r.2)
      else
        match firstHit targets moved.pos with
        | some t => (r.1, r.2 ++ [t])
        | none => (moved :: r.1, r.2)

/-- `update(deltaTime, targets)`: returns the new state and the list of
targets hit this tick.  `deltaTime` is a parameter of the source
method but is never read by it (time is measured with `Date.now()`,
motion is a fixed step). -/
def update (deltaTime : ℚ) (now : ℤ) (targets : List Target)
    (s : ShootState) : ShootState × List Target :=
  let r := updateGo now targets s.projectiles
  ({ s with projectiles := r.1 }, r.2)

/-- `clear()`: removes every projectile. -/
def clear (s : ShootState) : ShootState := { s with projectiles := [] }

end ShootingSystem

/-- An alien entity, shared by both AlienGrid variants: immutable grid
coordinates, local position inside the formation group, cosmetic
z-rotation, the `originalY` baseline for the bounce animation, the
randomized `wiggleOffset`, the liveness and visibility flags, and the
fixed point value (`type * 10` from the factory). -/
structure Alien where
  gridRow : ℕ
  gridCol : ℕ
  posX : ℚ
  posY : ℚ
  posZ : ℚ
  rotZ : ℚ
  originalY : ℚ
  wiggleOffset : ℚ
  isAlive : Bool
  visible : Bool
  points : ℤ
deriving DecidableEq, Repr

/-- `alienType` chosen from the row in `spawnWave`: row 0 ↦ 3,
rows 1–2 ↦ 2, rows 3–4 ↦ 1. -/
def alienTypeOfRow (row : ℕ) : ℤ :=
  if row = 0 then 3 else if row ≤ 2 then 2 else 1

/-! The boundary-based AlienGrid variant: reversal is triggered by the
live aliens' world-space extent crossing `boundaryX`. -/

namespace AlienGrid2

/-- Grid configuration constants from the constructor. -/
def rows : ℕ := 5

def cols : ℕ := 11

def spacingX : ℚ := 6/5

def spacingY : ℚ := 4/5

def startY : ℚ := 3

def startZ : ℚ := -8

def baseSpeed : ℚ := 3/200

def dropDistance : ℚ := 3/10

def boundaryX : ℚ := 5

def wiggleAmount : ℚ := 1/10

/-- The grid's mutable state: the row-major alien matrix, the sweep
direction (±1), the current and wave-scaled speeds, the animation
clock, and the formation group's position (`none` before a wave is
spawned or after `clear()`). -/
structure GridState where
  aliens : List (List Alien)
  direction : ℚ
  moveSpeed : ℚ
  speedMultiplier : ℚ
  wiggleTime : ℚ
  group : Option Vec3
deriving DecidableEq, Repr

/-- Constructor state. -/
def initial : GridState :=
  { aliens := [], direction := 1, moveSpeed := baseSpeed,
    speedMultiplier := 1, wiggleTime := 0, group := none }

/-- `clear()`: drops the aliens and the group and resets direction and
speed (`speedMultiplier` and `wiggleTime` are deliberately left as the
source leaves them). -/
def clear (s : GridState) : GridState :=
  { s with aliens := [], group := none, direction := 1,
           moveSpeed := baseSpeed }

/-- One alien as built by `spawnWave`: local position on the centered
grid, `originalY` initialized to the spawn y, alive and visible, with
`points = type * 10` set by the factory.  The factory's visual scale
argument `1 + wave * 0.05` only sizes the mesh and carries no game
state. -/
def mkAlien (wo : ℕ → ℕ → ℚ) (row col : ℕ) : Alien :=
  let offsetX : ℚ := -(((cols : ℚ) - 1) * spacingX) / 2
  let y : ℚ := startY - (row : ℚ) * spacingY
  { gridRow := row, gridCol := col,
    posX := offsetX + (col : ℚ) * spacingX, posY := y, posZ := startZ,
    rotZ := 0, originalY := y, wiggleOffset := wo row col,
    isAlive := true, visible := true, points := alienTypeOfRow row * 10 }

/-- `spawnWave(wave)`: clears the previous formation, creates a fresh
group at the origin, scales the speed by `1 + (wave - 1) * 0.15`, and
builds the 5×11 alien matrix. -/
def spawnWave (wo : ℕ → ℕ → ℚ) (wave : ℕ) (s : GridState) : GridState :=
  let s0 := clear s
  let mult : ℚ := 1 + ((wave : ℚ) - 1) * (3/20)
  { s0 with
    group := some ⟨0, 0, 0⟩,
    speedMultiplier := mult,
    moveSpeed := baseSpeed * mult,
    aliens := (List.range rows).map fun row =>
      (List.range cols).map fun col => mkAlien wo row col }

/-- `getAliveAliens()`: the alive aliens in row-major order. -/
def getAliveAliens (s : GridState) : List Alien :=
  s.aliens.flatten.filter (·.isAlive)

/-- `getAliveCount()`. -/
def getAliveCount (s : GridState) : ℕ := (getAliveAliens s).length

/-- `isWaveCleared()`. -/
def isWaveCleared (s : GridState) : Bool := getAliveCount s == 0

/-- Minimum accumulator seeded with `Infinity`: `none` plays the role
of the infinite seed, so an empty fold yields `none`. -/
def minO (o : Option ℚ) (v : ℚ) : Option ℚ :=
  some (match o with | none => v | some w => min w v)

/-- Maximum accumulator seeded with `-Infinity`. -/
def maxO (o : Option ℚ) (v : ℚ) : Option ℚ :=
  some (match o with | none => v | some w => max w v)

/-- World-space x of the rightmost live alien (`rightMost`); the
world position of an alien is the group position plus its local
position, the group carrying no rotation. -/
def rightMost (g : Vec3) (s : GridState) : Option ℚ :=
  (getAliveAliens s).foldl (fun o a => maxO o (g.x + a.posX)) none

/-- World-space x of the leftmost live alien (`leftMost`). -/
def leftMost (g : Vec3) (s : GridState) : Option ℚ :=
  (getAliveAliens s).foldl (fun o a => minO o (g.x + a.posX)) none

/-- World-space y of the lowest live alien (`lowestY`). -/
def lowestY (g : Vec3) (s : GridState) : Option ℚ :=
  (getAliveAliens s).foldl (fun o a => minO o (g.y + a.posY)) none

/-- `needsToChangeDirection`: the rightmost live alien has reached
`boundaryX` while sweeping right, or the leftmost has reached
`-boundaryX` while sweeping left.  With no live alien the extents stay
at their infinite seeds and neither comparison fires. -/
def needsDirectionChange (g : Vec3) (s : GridState) : Bool :=
  (match rightMost g s with
   | some r => decide (boundaryX ≤ r) | none => false)
    && decide (s.direction = 1)
  || (match leftMost g s with
      | some l => decide (l ≤ -boundaryX) | none => false)
    && decide (s.direction = -1)

/-- `hitGround`: the lowest live alien is at or below y = −3. -/
def hitGroundCheck (g : Vec3) (s : GridState) : Bool :=
  match lowestY g s with
  | some v => decide (v ≤ -3)
  | none => false

/-- The cosmetic wiggle pass on one live alien: z-rotation
`sin(wt + offset) * wiggleAmount` and vertical bounce
`originalY + sin(2·wt + offset) * 0.02`.  (The source's trailing
`originalY === undefined` guard is dead code: `spawnWave` always sets
`originalY`.) -/
def wigglePass2 (sinQ : ℚ → ℚ) (wt : ℚ) (a : Alien) : Alien :=
  if a.isAlive then
    { a with rotZ := sinQ (wt + a.wiggleOffset) * wiggleAmount,
             posY := a.originalY + sinQ (wt * 2 + a.wiggleOffset) * (1/50) }
  else a

/-- `update(deltaTime)`: returns the new state and the hit-ground
flag.  With no group or an empty matrix it returns false untouched.
Otherwise it advances the wiggle clock by `deltaTime * 3`, measures the
live extents, then either reverses (invert direction, drop the group
by `dropDistance`, multiply the speed by 1.02) or steps the group by
`direction * moveSpeed` — a fixed per-frame step in which `deltaTime`
plays no part — and finally applies the cosmetic wiggle pass. -/
def update (sinQ : ℚ → ℚ) (s : GridState) (deltaTime : ℚ) :
    GridState × Bool :=
  match s.group with
  | none => (s, false)
  | some g =>
    if s.aliens = [] then (s, false)
    else
      let wt := s.wiggleTime + deltaTime * 3
      let change := needsDirectionChange g s
      let ground := hitGroundCheck g s
      let dir2 := if change then -s.direction else s.direction
      let g2 : Vec3 :=
        if change then { g with y := g.y - dropDistance }
        else { g with x := g.x + s.direction * s.moveSpeed }
      let speed2 := if change then s.moveSpeed * (51/50) else s.moveSpeed
      let aliens2 := s.aliens.map (·.map (wigglePass2 sinQ wt))
      ({ s with wiggleTime := wt, direction := dir2, moveSpeed := speed2,
                group := some g2, aliens := aliens2 }, ground)

/-- Lookup of the alien object named by its grid coordinates. -/
def findAlien (s : GridState) (row col : ℕ) : Option Alien :=
  s.aliens.flatten.find? fun a => a.gridRow == row && a.gridCol == col

/-- Marks the alien at (row, col) dead and invisible, leaving every
other alien untouched (grid coordinates are unique per spawn, so this
is the source's single-object mutation). -/
def markDead (aliens : List (List Alien)) (row col : ℕ) :
    List (List Alien) :=
  aliens.map (·.map fun a =>
    if a.gridRow == row && a.gridCol == col then
      { a with isAlive := false, visible := false }
    else a)

/-- `destroyAlien(alien)`, the alien named by (row, col): returns 0
and changes nothing when the alien is already dead; otherwise marks it
dead/hidden, and, if survivors remain, recomputes
`moveSpeed = baseSpeed * speedMultiplier * (1 + (55 - aliveCount) * 0.02)`
from the post-kill live count, returning the alien's points.  The
explosion effect and its delayed cleanup are purely visual. -/
def destroyAlien (s : GridState) (row col : ℕ) : ℤ × GridState :=
  match findAlien s row col with
  | none => (0, s)
  | some a =>
    if !a.isAlive then (0, s)
    else
      let aliens2 := markDead s.aliens row col
      let s2 := { s with aliens := aliens2 }
      let aliveCount := getAliveCount s2
      let s3 :=
        if 0 < aliveCount then
          { s2 with moveSpeed :=
              baseSpeed * s.speedMultiplier
                * (1 + (55 - (aliveCount : ℚ)) * (1/50)) }
        else s2
      (a.points, s3)

end AlienGrid2

/-! The cycle-counted AlienGrid variant: the formation tracks its
cumulative horizontal travel since the last descent and reverses when
its magnitude reaches `horizontalLimit`, counting descents up to
`maxDrops`. -/

namespace AlienGrid3

/-- Grid configuration constants from the constructor (doubled
spacing, larger aliens, deeper start). -/
def rows : ℕ := 5

def cols : ℕ := 11

def spacingX : ℚ := 12/5

def spacingY : ℚ := 8/5

def startY : ℚ := 6

def startZ : ℚ := -15

def baseSpeed : ℚ := 1/50

def dropDistance : ℚ := 1

def horizontalLimit : ℚ := 10

def maxDrops : ℕ := 10

def wiggleAmount : ℚ := 1/10

/-- This variant's state adds the running horizontal offset
(`currentHorizontalPosition`) and the descent counter (`dropCount`). -/
structure GridState where
  aliens : List (List Alien)
  direction : ℚ
  moveSpeed : ℚ
  speedMultiplier : ℚ
  currentHorizontalPosition : ℚ
  dropCount : ℕ
  wiggleTime : ℚ
  group : Option Vec3
deriving DecidableEq, Repr

/-- Constructor state; the sweep starts leftwards (`direction = -1`). -/
def initial : GridState :=
  { aliens := [], direction := -1, moveSpeed := baseSpeed,
    speedMultiplier := 1, currentHorizontalPosition := 0,
    dropCount := 0, wiggleTime := 0, group := none }

/-- `clear()`: drops everything and resets direction, speed,
horizontal offset and descent counter. -/
def clear (s : GridState) : GridState :=
  { s with aliens := [], group := none, direction := -1,
           moveSpeed := baseSpeed, currentHorizontalPosition := 0,
           dropCount := 0 }

/-- One alien as built by this variant's `spawnWave` (fixed visual
scale `alienScale = 2`, game state identical in shape). -/
def mkAlien (wo : ℕ → ℕ → ℚ) (row col : ℕ) : Alien :=
  let offsetX : ℚ := -(((cols : ℚ) - 1) * spacingX) / 2
  let y : ℚ := startY - (row : ℚ) * spacingY
  { gridRow := row, gridCol := col,
    posX := offsetX + (col : ℚ) * spacingX, posY := y, posZ := startZ,
    rotZ := 0, originalY := y, wiggleOffset := wo row col,
    isAlive := true, visible := true, points := alienTypeOfRow row * 10 }

/-- `spawnWave(wave)` for the cycle-counted variant. -/
def spawnWave (wo : ℕ → ℕ → ℚ) (wave : ℕ) (s : GridState) : GridState :=
  let s0 := clear s
  let mult : ℚ := 1 + ((wave : ℚ) - 1) * (3/20)
  { s0 with
    group := some ⟨0, 0, 0⟩,
    speedMultiplier := mult,
    moveSpeed := baseSpeed * mult,
    aliens := (List.range rows).map fun row =>
      (List.range cols).map fun col => mkAlien wo row col }

/-- `getAliveAliens()`. -/
def getAliveAliens (s : GridState) : List Alien :=
  s.aliens.flatten.filter (·.isAlive)

/-- `getAliveCount()`. -/
def getAliveCount (s : GridState) : ℕ := (getAliveAliens s).length

/-- `isWaveCleared()`. -/
def isWaveCleared (s : GridState) : Bool := getAliveCount s == 0

/-- The wiggle pass of this variant (bounce amplitude 0.05). -/
def wigglePass3 (sinQ : ℚ → ℚ) (wt : ℚ) (a : Alien) : Alien :=
  if a.isAlive then
    { a with rotZ := sinQ (wt + a.wiggleOffset) * wiggleAmount,
             posY := a.originalY + sinQ (wt * 2 + a.wiggleOffset) * (1/20) }
  else a

/-- The reversal trigger of this variant: after the horizontal step,
`|currentHorizontalPosition| ≥ horizontalLimit`. -/
def reversalAfterMove (s : GridState) : Bool :=
  decide
    (horizontalLimit ≤
      |s.currentHorizontalPosition + s.direction * s.moveSpeed|)

/-- `update(deltaTime)` for the cycle-counted variant: no group or no
aliens returns false untouched; the wiggle clock always advances; once
`dropCount ≥ maxDrops` every call returns true (game over) with only
the clock advanced; otherwise the group steps horizontally by
`direction * moveSpeed` (again a fixed per-frame step), and when the
accumulated travel reaches `horizontalLimit` the direction inverts,
the group and every live alien's `originalY` drop by `dropDistance`,
the descent counter increments and the travel resets — the speed is
left unchanged.  The cosmetic wiggle pass runs last. -/
def update (sinQ : ℚ → ℚ) (s : GridState) (deltaTime : ℚ) :
    GridState × Bool :=
  match s.group with
  | none => (s, false)
  | some g =>
    if s.aliens = [] then (s, false)
    else
      let wt := s.wiggleTime + deltaTime * 3
      if maxDrops ≤ s.dropCount then ({ s with wiggleTime := wt }, true)
      else
        let movement := s.direction * s.moveSpeed
        let g1 : Vec3 := { g with x := g.x + movement }
        let chp := s.currentHorizontalPosition + movement
        let rev := decide (horizontalLimit ≤ |chp|)
        let dir2 := if rev then -s.direction else s.direction
        let g2 := if rev then { g1 with y := g1.y - dropDistance } else g1
        let drops2 := if rev then s.dropCount + 1 else s.dropCount
        let chp2 := if rev then 0 else chp
        let aliens1 :=
          if rev then
            s.aliens.map (·.map fun a =>
              if a.isAlive then
                { a with originalY := a.originalY - dropDistance }
              else a)
          else s.aliens
        let aliens2 := aliens1.map (·.map (wigglePass3 sinQ wt))
        ({ s with wiggleTime := wt, direction := dir2,
                  currentHorizontalPosition := chp2, dropCount := drops2,
                  group := some g2, aliens := aliens2 }, false)

/-- Lookup of the alien object named by its grid coordinates. -/
def findAlien (s : GridState) (row col : ℕ) : Option Alien :=
  s.aliens.flatten.find? fun a => a.gridRow == row && a.gridCol == col

/-- Marks the alien at (row, col) dead and invisible. -/
def markDead (aliens : List (List Alien)) (row col : ℕ) :
    List (List Alien) :=
  aliens.map (·.map fun a =>
    if a.gridRow == row && a.gridCol == col then
      { a with isAlive := false, visible := false }
    else a)

/-- `destroyAlien(alien)` for this variant — textually the same
routine as the boundary variant's, with this variant's `baseSpeed`. -/
def destroyAlien (s : GridState) (row col : ℕ) : ℤ × GridState :=
  match findAlien s row col with
  | none => (0, s)
  | some a =>
    if !a.isAlive then (0, s)
    else
      let aliens2 := markDead s.aliens row col
      let s2 := { s with aliens := aliens2 }
      let aliveCount := getAliveCount s2
      let s3 :=
        if 0 < aliveCount then
          { s2 with moveSpeed :=
              baseSpeed * s.speedMultiplier
                * (1 + (55 - (aliveCount : ℚ)) * (1/50)) }
        else s2
      (a.points, s3)

end AlienGrid3

namespace HUD

/-- `this.comboTimeout = 2000` ms. -/
def comboTimeout : ℤ := 2000

/-- `this.maxLives = 3`. -/
def maxLives : ℕ := 3

/-- The HUD's game-relevant state: the authoritative score
(`targetScore`, which `getScore()` returns; `displayedScore` is a
purely visual roll-up), the combo counter, the pending combo-reset
timer's deadline (the `setTimeout` scheduled by `incrementCombo`,
`none` when no timer is pending), lives and wave display. -/
structure HUDState where
  targetScore : ℤ
  comboCount : ℕ
  comboDeadline : Option ℤ
  currentLives : ℕ
  currentWave : ℕ
deriving DecidableEq, Repr

/-- Constructor / `reset()` state. -/
def initial : HUDState :=
  { targetScore := 0, comboCount := 0, comboDeadline := none,
    currentLives := maxLives, currentWave := 1 }

/-- `incrementCombo()` at time `now`: bumps the counter, cancels any
pending reset timer and schedules a fresh one `comboTimeout` from
now. -/
def incrementCombo (now : ℤ) (s : HUDState) : HUDState :=
  { s with comboCount := s.comboCount + 1,
           comboDeadline := some (now + comboTimeout) }

/-- `resetCombo()`: zeroes the combo counter. -/
def resetCombo (s : HUDState) : HUDState :=
  { s with comboCount := 0, comboDeadline := none }

/-- The combo-reset `setTimeout` callback firing at time `now`: it
runs only if a timer is pending and due, and resets the combo. -/
def fireComboTimer (now : ℤ) (s : HUDState) : HUDState :=
  match s.comboDeadline with
  | some d => if d ≤ now then resetCombo s else s
  | none => s

/-- `addScore(points)` at time `now`: the multiplier is
`min(comboCount, 5)` clamped below by 1
(`points * Math.max(1, multiplier)`), the product is added to the
score, and the combo is incremented.  The popup and count-up
animation are purely visual. -/
def addScore (now points : ℤ) (s : HUDState) : HUDState :=
  let multiplier : ℤ := min (s.comboCount : ℤ) 5
  let finalPoints := points * max 1 multiplier
  incrementCombo now { s with targetScore := s.targetScore + finalPoints }

/-- `loseLife()`: decrements while positive and returns the remaining
lives. -/
def loseLife (s : HUDState) : ℕ × HUDState :=
  if 0 < s.currentLives then
    let s2 := { s with currentLives := s.currentLives - 1 }
    (s2.currentLives, s2)
  else (s.currentLives, s)

/-- `setWave(wave)`. -/
def setWave (wave : ℕ) (s : HUDState) : HUDState :=
  { s with currentWave := wave }

/-- `getScore()`. -/
def getScore (s : HUDState) : ℤ := s.targetScore

end HUD

namespace GameManager

/-- The frame loop's state: the `isPlaying` flag, wave and kill
counters, the owned subsystem states (the grid is the boundary-based
AlienGrid variant, which is the one the manager instantiates), and the
deadlines of the `setTimeout` next-wave spawns scheduled by
`onWaveComplete` (1500 ms each), in scheduling order. -/
structure GMState where
  isPlaying : Bool
  wave : ℕ
  aliensKilled : ℕ
  grid : AlienGrid2.GridState
  shooting : ShootingSystem.ShootState
  hud : HUD.HUDState
  pendingWaveSpawns : List ℤ
deriving DecidableEq, Repr

/-- The object identity of an alien, flattened to a number so the
shooting system's hit list can name it. -/
def targetId (a : Alien) : ℕ := a.gridRow * AlienGrid2.cols + a.gridCol

/-- An alive alien viewed as a collision target: its world position is
the group position plus its local position. -/
def alienToTarget (g : Vec3) (a : Alien) : ShootingSystem.Target :=
  { id := targetId a,
    worldPos := ⟨g.x + a.posX, g.y + a.posY, g.z + a.posZ⟩,
    isAlive := a.isAlive }

/-- `this.alienGrid.getAliveAliens()` handed to the shooting system as
targets.  (A formation always has a group while it has aliens; the
origin default covers the vacuous detached case.) -/
def liveTargets (s : AlienGrid2.GridState) : List ShootingSystem.Target :=
  (AlienGrid2.getAliveAliens s).map
    (alienToTarget (s.group.getD ⟨0, 0, 0⟩))

/-- `spawnWave()`: spawns the grid at the current wave number and
updates the HUD's wave display (the wave-complete sound is
fire-and-forget audio). -/
def spawnWave (wo : ℕ → ℕ → ℚ) (s : GMState) : GMState :=
  { s with grid := AlienGrid2.spawnWave wo s.wave s.grid,
           hud := HUD.setWave s.wave s.hud }

/-- `gameOver()`: stops play and clears the grid and the projectiles
(HUD hiding and the summary screen are presentation). -/
def gameOver (s : GMState) : GMState :=
  { s with isPlaying := false,
           grid := AlienGrid2.clear s.grid,
           shooting := ShootingSystem.clear s.shooting }

/-- `onAlienHitGround()`: lose a life; at zero lives it is game over,
otherwise the current wave is cleared and respawned at the unchanged
wave number. -/
def onAlienHitGround (wo : ℕ → ℕ → ℚ) (s : GMState) : GMState :=
  let r := HUD.loseLife s.hud
  let s1 := { s with hud := r.2 }
  if r.1 = 0 then gameOver s1
  else spawnWave wo { s1 with grid := AlienGrid2.clear s1.grid }

/-- `onAlienHit(alien)` at time `now`: destroy the alien (collecting
its points), count the kill, and add the points to the HUD score (the
popup coordinates are presentation). -/
def onAlienHit (now : ℤ) (s : GMState) (t : ShootingSystem.Target) :
    GMState :=
  let r := AlienGrid2.destroyAlien s.grid
    (t.id / AlienGrid2.cols) (t.id % AlienGrid2.cols)
  { s with grid := r.2,
           aliensKilled := s.aliensKilled + 1,
           hud := HUD.addScore now r.1 s.hud }

/-- `onWaveComplete()` at time `now`: increments the wave number and
schedules a spawn 1500 ms ahead. -/
def onWaveComplete (now : ℤ) (s : GMState) : GMState :=
  { s with wave := s.wave + 1,
           pendingWaveSpawns := s.pendingWaveSpawns ++ [now + 1500] }

/-- One invocation of `gameLoop()` at wall-clock `now` with frame
delta `deltaTime`: nothing happens unless playing; the grid advances
and a ground hit costs a life (possibly respawning or ending the
game); the projectiles advance against the then-current live aliens
and each reported hit is processed in order; finally, if the grid has
no live alien, `onWaveComplete` runs — note that this check is made
on every frame, with the spawn only scheduled, not performed. -/
def gameLoop (wo : ℕ → ℕ → ℚ) (sinQ : ℚ → ℚ) (now : ℤ)
    (deltaTime : ℚ) (s : GMState) : GMState :=
  if !s.isPlaying then s
  else
    let gu := AlienGrid2.update sinQ s.grid deltaTime
    let s1 := { s with grid := gu.1 }
    let s2 := if gu.2 then onAlienHitGround wo s1 else s1
    let su := ShootingSystem.update deltaTime now (liveTargets s2.grid)
      s2.shooting
    let s3 := { s2 with shooting := su.1 }
    let s4 := su.2.foldl (onAlienHit now) s3
    if AlienGrid2.isWaveCleared s4.grid then onWaveComplete now s4 else s4

/-- The earliest scheduled next-wave `setTimeout` callback firing: it
spawns only if the game is still playing. -/
def fireWaveSpawn (wo : ℕ → ℕ → ℚ) (s : GMState) : GMState :=
  match s.pendingWaveSpawns with
  | [] => s
  | _ :: rest =>
    let s1 := { s with pendingWaveSpawns := rest }
    if s1.isPlaying then spawnWave wo s1 else s1

end GameManager

/-! Concrete instantiations used by closed evaluations: a zero
stand-in for `Math.sin` and for the random wiggle offsets (the
engine's decision logic never depends on either), and game states
reached by running the embedded operations from their initial
states. -/

/-- Concrete sine stand-in for closed runs. -/
def sinZero : ℚ → ℚ := fun _ => 0

/-- Concrete wiggle-offset stand-in for closed runs. -/
def woZero : ℕ → ℕ → ℚ := fun _ _ => 0

/-- The boundary-variant grid right after `spawnWave(1)`: 55 live
aliens spanning x ∈ [−6, 6], speed 3/200. -/
def waveGrid : AlienGrid2.GridState :=
  AlienGrid2.spawnWave woZero 1 AlienGrid2.initial

/-- `waveGrid` after one `update`.  The spawned 5×11 grid spans past
`boundaryX = 5` on both sides, so this update reverses: speed becomes
(3/200)·1.02. -/
def gOneRev : AlienGrid2.GridState :=
  (AlienGrid2.update sinZero waveGrid 1).1

/-- `gOneRev` after another `update` — a second reversal, speed
(3/200)·1.02². -/
def gTwoRev : AlienGrid2.GridState :=
  (AlienGrid2.update sinZero gOneRev 1).1

/-- `waveGrid` with every alien except (2,5) destroyed: 54 kills. -/
def gOneAlive : AlienGrid2.GridState :=
  (List.range AlienGrid2.rows).foldl
    (fun g r =>
      (List.range AlienGrid2.cols).foldl
        (fun g c =>
          if r = 2 ∧ c = 5 then g else (AlienGrid2.destroyAlien g r c).2)
        g)
    waveGrid

/-- `waveGrid` with all 55 aliens destroyed — the wave-cleared grid. -/
def gAllDead : AlienGrid2.GridState :=
  (AlienGrid2.destroyAlien gOneAlive 2 5).2

/-- A playing game whose current wave has just been fully cleared. -/
def gmCleared : GameManager.GMState :=
  { isPlaying := true, wave := 1, aliensKilled := 55, grid := gAllDead,
    shooting := ShootingSystem.initial, hud := HUD.initial,
    pendingWaveSpawns := [] }

/-- The alien at (0,0) of `waveGrid` once destroyed. -/
def aDead2 : Alien :=
  { AlienGrid2.mkAlien woZero 0 0 with isAlive := false, visible := false }

/-- `waveGrid` with the (0,0) alien destroyed. -/
def gDead2 : AlienGrid2.GridState :=
  (AlienGrid2.destroyAlien waveGrid 0 0).2

/-- The cycle-variant grid right after `spawnWave(1)`. -/
def wave3Grid : AlienGrid3.GridState :=
  AlienGrid3.spawnWave woZero 1 AlienGrid3.initial

/-- The alien at (0,0) of `wave3Grid` once destroyed. -/
def aDead3 : Alien :=
  { AlienGrid3.mkAlien woZero 0 0 with isAlive := false, visible := false }

/-- `wave3Grid` with the (0,0) alien destroyed. -/
def gDead3 : AlienGrid3.GridState :=
  (AlienGrid3.destroyAlien wave3Grid 0 0).2

/-- A cycle-variant grid one step short of its horizontal limit:
accumulated travel 499/50 = 9.98, so the next 0.02 step reaches 10 and
reverses. -/
def gCycEdge : AlienGrid3.GridState :=
  { aliens := [[AlienGrid3.mkAlien woZero 0 0]], direction := 1,
    moveSpeed := 1/50, speedMultiplier := 1,
    currentHorizontalPosition := 499/50, dropCount := 0,
    wiggleTime := 0, group := some ⟨499/50, 0, 0⟩ }

/-- A live target sitting at the origin. -/
def tC1 : ShootingSystem.Target :=
  { id := 0, worldPos := ⟨0, 0, 0⟩, isAlive := true }

/-- A projectile half a unit in front of the origin, flying into it:
after one movement step it is exactly on `tC1`. -/
def pC1 : ShootingSystem.Projectile :=
  { pos := ⟨0, 0, 1/2⟩, dir := ⟨0, 0, -1⟩, createdAt := 0,
    isActive := true }

/-- A projectile created at time 0 at the origin, flying down −z. -/
def pC7 : ShootingSystem.Projectile :=
  { pos := ⟨0, 0, 0⟩, dir := ⟨0, 0, -1⟩, createdAt := 0,
    isActive := true }

/-- A HUD with a running combo and a reset timer due at t = 5. -/
def hudTimed : HUD.HUDState :=
  { targetScore := 100, comboCount := 3, comboDeadline := some 5,
    currentLives := 3, currentWave := 1 }

set_option maxRecDepth 100000

/-- C8: a `shoot()` call while the elapsed time since the last
successful shot is below the 200 ms cooldown returns false and leaves
the whole shooting state — projectile list included — untouched. -/
theorem C8_cooldown_noop (s : ShootingSystem.ShootState) (now : ℤ)
    (camPos camDir : Vec3)
    (h : now - s.lastShotTime < ShootingSystem.cooldown) :
    ShootingSystem.shoot s now camPos camDir = (false, s) := by
  simp [ShootingSystem.shoot, h]

/-- C8 witness: a second shot 100 ms after a successful one at t =
1000 is rejected with no state change. -/
theorem C8_cooldown_noop_witness :
    (1100 : ℤ) - (1000 : ℤ) < ShootingSystem.cooldown ∧
    ShootingSystem.shoot ⟨1000, []⟩ 1100 ⟨0, 0, 0⟩ ⟨0, 0, -1⟩
      = (false, ⟨1000, []⟩) :=
  ⟨by decide,
   C8_cooldown_noop ⟨1000, []⟩ 1100 ⟨0, 0, 0⟩ ⟨0, 0, -1⟩ (by decide)⟩

/-- C9: in both AlienGrid variants, `destroyAlien` on an alien whose
liveness flag is already false returns 0 points and returns the state
exactly as it was — no alien, no speed, no other field changes. -/
theorem C9_destroy_dead_noop
    (s2 : AlienGrid2.GridState) (r2 c2 : ℕ) (a2 : Alien)
    (s3 : AlienGrid3.GridState) (r3 c3 : ℕ) (a3 : Alien)
    (h2 : AlienGrid2.findAlien s2 r2 c2 = some a2)
    (h2d : a2.isAlive = false)
    (h3 : AlienGrid3.findAlien s3 r3 c3 = some a3)
    (h3d : a3.isAlive = false) :
    AlienGrid2.destroyAlien s2 r2 c2 = (0, s2) ∧
    AlienGrid3.destroyAlien s3 r3 c3 = (0, s3) := by
  constructor
  · simp [AlienGrid2.destroyAlien, h2, h2d]
  · simp [AlienGrid3.destroyAlien, h3, h3d]

/-- C9 witness: destroying the already-destroyed (0,0) alien of a
freshly spawned wave is a no-op returning 0, in both variants. -/
theorem C9_destroy_dead_noop_witness :
    AlienGrid2.destroyAlien gDead2 0 0 = (0, gDead2) ∧
    AlienGrid3.destroyAlien gDead3 0 0 = (0, gDead3) :=
  C9_destroy_dead_noop gDead2 0 0 aDead2 gDead3 0 0 aDead3
    (by with_unfolding_all decide) (by with_unfolding_all decide)
    (by with_unfolding_all decide) (by with_unfolding_all decide)

/-- C10: in both AlienGrid variants, `update(deltaTime)` with no
formation (no group — the constructor state and the state after any
`clear()` — or an empty alien matrix) returns false and leaves the
state untouched, for every `deltaTime`; and `clear()` and the
constructor state do put the grid in that formationless shape. -/
theorem C10_update_without_formation
    (sq : ℚ → ℚ) (s2 : AlienGrid2.GridState) (s3 : AlienGrid3.GridState)
    (dt2 dt3 : ℚ)
    (h2 : s2.group = none ∨ s2.aliens = [])
    (h3 : s3.group = none ∨ s3.aliens = []) :
    AlienGrid2.update sq s2 dt2 = (s2, false) ∧
    AlienGrid3.update sq s3 dt3 = (s3, false) ∧
    (AlienGrid2.clear s2).group = none ∧
    (AlienGrid2.clear s2).aliens = [] ∧
    (AlienGrid3.clear s3).group = none ∧
    (AlienGrid3.clear s3).aliens = [] ∧
    AlienGrid2.initial.group = none ∧
    AlienGrid3.initial.group = none := by
  refine ⟨?_, ?_, rfl, rfl, rfl, rfl, rfl, rfl⟩
  · rcases h2 with h | h
    · simp [AlienGrid2.update, h]
    · cases hg : s2.group with
      | none => simp [AlienGrid2.update, hg]
      | some g => simp [AlienGrid2.update, hg, h]
  · rcases h3 with h | h
    · simp [AlienGrid3.update, h]
    · cases hg : s3.group with
      | none => simp [AlienGrid3.update, hg]
      | some g => simp [AlienGrid3.update, hg, h]

/-- C10 witness: the constructor states of both variants ignore an
update with deltaTime 1. -/
theorem C10_update_without_formation_witness :
    AlienGrid2.update sinZero AlienGrid2.initial 1
        = (AlienGrid2.initial, false) ∧
    AlienGrid3.update sinZero AlienGrid3.initial 1
        = (AlienGrid3.initial, false) ∧
    (AlienGrid2.clear AlienGrid2.initial).group = none ∧
    (AlienGrid2.clear AlienGrid2.initial).aliens = [] ∧
    (AlienGrid3.clear AlienGrid3.initial).group = none ∧
    (AlienGrid3.clear AlienGrid3.initial).aliens = [] ∧
    AlienGrid2.initial.group = none ∧
    AlienGrid3.initial.group = none :=
  C10_update_without_formation sinZero AlienGrid2.initial
    AlienGrid3.initial 1 1 (Or.inl rfl) (Or.inl rfl)

/-- C7 counterexample: at the first tick where the elapsed lifetime
equals the configured 2000 ms — so elapsed ≥ lifetime, at which the
claim requires the projectile to be deactivated and discarded — the
code keeps the projectile: its expiry test is strict (`>`). -/
theorem C7_survives_at_exact_lifetime :
    ShootingSystem.projectileLifetime ≤ 2000 - pC7.createdAt ∧
    (ShootingSystem.update 1 2000 [] ⟨0, [pC7]⟩).1.projectiles
      = [ShootingSystem.moveProjectile pC7] := by
  constructor
  · decide
  · with_unfolding_all decide

/-- C7 amended: a projectile that hits nothing is discarded at a tick
exactly when its elapsed lifetime strictly exceeds the configured
2000 ms, and survives (merely moved) whenever elapsed ≤ lifetime; it
never produces a hit. -/
theorem C7_expiry_strict (dt : ℚ) (now last : ℤ)
    (targets : List ShootingSystem.Target)
    (p : ShootingSystem.Projectile)
    (hact : p.isActive = true)
    (hmiss : ShootingSystem.firstHit targets
        (ShootingSystem.moveProjectile p).pos = none) :
    (ShootingSystem.update dt now targets ⟨last, [p]⟩).1.projectiles
        = (if ShootingSystem.projectileLifetime < now - p.createdAt
           then [] else [ShootingSystem.moveProjectile p]) ∧
    (ShootingSystem.update dt now targets ⟨last, [p]⟩).2 = [] := by
  by_cases hexp : ShootingSystem.projectileLifetime < now - p.createdAt
  · simp [ShootingSystem.update, ShootingSystem.updateGo, hact, hexp]
  · simp [ShootingSystem.update, ShootingSystem.updateGo, hact, hexp,
      hmiss]

/-- C7 witness: with no targets, the projectile created at t = 0 is
discarded at t = 2001 (elapsed 2001 > 2000) and no hit is reported. -/
theorem C7_expiry_strict_witness :
    (ShootingSystem.update 1 2001 [] ⟨0, [pC7]⟩).1.projectiles
        = (if ShootingSystem.projectileLifetime < 2001 - pC7.createdAt
           then [] else [ShootingSystem.moveProjectile pC7]) ∧
    (ShootingSystem.update 1 2001 [] ⟨0, [pC7]⟩).2 = [] :=
  C7_expiry_strict 1 2001 0 [] pC7 rfl rfl

/-- C1 counterexample: two projectiles converging on the same live
target in one tick both record a hit on it — the hit list returned by
`update` names the same target twice, because a hit only deactivates
the projectile while the target's liveness flag (which `destroyAlien`
clears later, outside the shooting system) still reads alive for the
next projectile. -/
theorem C1_target_hit_twice :
    (ShootingSystem.update 1 0 [tC1] ⟨0, [pC1, pC1]⟩).2 = [tC1, tC1] ∧
    ¬ (ShootingSystem.update 1 0 [tC1] ⟨0, [pC1, pC1]⟩).2.Nodup := by
  constructor
  · with_unfolding_all decide
  · with_unfolding_all decide

/-- C1 amended: within one `update` call each projectile still scores
at most one hit — the returned hit list is never longer than the
number of active projectiles — but a target already hit in the tick
remains eligible and can be hit again by later-processed projectiles. -/
theorem C1_at_most_one_hit_per_projectile (dt : ℚ) (now : ℤ)
    (targets : List ShootingSystem.Target)
    (s : ShootingSystem.ShootState) :
    (ShootingSystem.update dt now targets s).2.length
      ≤ (s.projectiles.filter (·.isActive)).length := by
  have go : ∀ ps : List ShootingSystem.Projectile,
      (ShootingSystem.updateGo now targets ps).2.length
        ≤ (ps.filter (·.isActive)).length := by
    intro ps
    induction ps with
    | nil => simp [ShootingSystem.updateGo]
    | cons p rest ih =>
      cases hact : p.isActive with
      | false =>
        simp only [ShootingSystem.updateGo, List.filter_cons, hact]
        simpa using ih
      | true =>
        by_cases hexp :
            ShootingSystem.projectileLifetime < now - p.createdAt
        · simp only [ShootingSystem.updateGo, List.filter_cons, hact,
            hexp]
          simp only [Bool.not_true, Bool.false_eq_true, ite_false,
            ite_true, List.length_cons]
          omega
        · cases hfh : ShootingSystem.firstHit targets
              (ShootingSystem.moveProjectile p).pos with
          | none =>
            simp only [ShootingSystem.updateGo, List.filter_cons, hact,
              hexp, hfh]
            simp only [Bool.not_true, Bool.false_eq_true, ite_false,
              ite_true, List.length_cons]
            omega
          | some t =>
            simp only [ShootingSystem.updateGo, List.filter_cons, hact,
              hexp, hfh]
            simp only [Bool.not_true, Bool.false_eq_true, ite_false,
              ite_true, List.length_append, List.length_cons,
              List.length_nil]
            omega
  simpa [ShootingSystem.update] using go s.projectiles

/-- C3 counterexample: on the first hit after a combo reset the combo
count is 0, so the claim's increment `points × min(comboCount, 5)`
is 0 — but the code clamps the multiplier below by 1
(`points * Math.max(1, multiplier)`) and adds the full 10 points. -/
theorem C3_zero_combo_counterexample :
    (HUD.addScore 0 10 HUD.initial).targetScore
      ≠ HUD.initial.targetScore
          + 10 * min ((HUD.initial.comboCount : ℤ)) 5 := by
  with_unfolding_all decide

/-- C3 amended: each processed hit adds exactly
`points × max(1, min(comboCount, 5))` to the score, where
`comboCount` is the count in effect at that hit; the count increments
on every hit and the hit re-arms the reset timer 2000 ms ahead, and a
due timer firing with no intervening hit resets the count to 0. -/
theorem C3_score_combo_semantics
    (now points : ℤ) (s : HUD.HUDState) (t d : ℤ) (s2 : HUD.HUDState)
    (hd : s2.comboDeadline = some d) (hdue : d ≤ t) :
    (HUD.addScore now points s).targetScore
        = s.targetScore + points * max 1 (min (s.comboCount : ℤ) 5) ∧
    (HUD.addScore now points s).comboCount = s.comboCount + 1 ∧
    (HUD.addScore now points s).comboDeadline
        = some (now + HUD.comboTimeout) ∧
    (HUD.fireComboTimer t s2).comboCount = 0 := by
  refine ⟨rfl, rfl, rfl, ?_⟩
  simp [HUD.fireComboTimer, HUD.resetCombo, hd, hdue]

/-- C3 witness: a 20-point hit at t = 0 with a running combo of 3
scores 20 × 3, bumps the combo to 4 and re-arms the timer at 2000;
and a due timer (deadline 5 ≤ t = 10) resets the combo. -/
theorem C3_score_combo_semantics_witness :
    (HUD.addScore 0 20 hudTimed).targetScore
        = hudTimed.targetScore
            + 20 * max 1 (min (hudTimed.comboCount : ℤ) 5) ∧
    (HUD.addScore 0 20 hudTimed).comboCount = hudTimed.comboCount + 1 ∧
    (HUD.addScore 0 20 hudTimed).comboDeadline
        = some (0 + HUD.comboTimeout) ∧
    (HUD.fireComboTimer 10 hudTimed).comboCount = 0 :=
  C3_score_combo_semantics 0 20 hudTimed 10 5 hudTimed rfl (by decide)

/-- C4 counterexample: with deltaTime = 7, the one-survivor formation
moves by exactly its `moveSpeed` (not `moveSpeed * 7`), and a
projectile moves by exactly `projectileSpeed` along its direction (not
`projectileSpeed * 7`): per-tick motion is a fixed step that ignores
the elapsed time. -/
theorem C4_deltaTime_ignored :
    (AlienGrid2.update sinZero gOneAlive 7).1.group
        = some ⟨gOneAlive.moveSpeed, 0, 0⟩ ∧
    gOneAlive.moveSpeed ≠ gOneAlive.moveSpeed * 7 ∧
    (ShootingSystem.update 7 0 [] ⟨0, [pC7]⟩).1.projectiles
        = [{ pC7 with pos := ⟨0, 0, -(1/2)⟩ }] ∧
    (⟨0, 0, -(1/2)⟩ : Vec3)
      ≠ pC7.pos.add (pC7.dir.scale (ShootingSystem.projectileSpeed * 7)) := by
  refine ⟨?_, ?_, ?_, ?_⟩ <;> with_unfolding_all decide

/-- C4 amended: on a non-reversing tick the formation's group moves
horizontally by exactly `direction * moveSpeed`, and a surviving
projectile's position advances by exactly
`direction * projectileSpeed` — in both subsystems the step is the
same for every `deltaTime`, which influences only the cosmetic wiggle
clock. -/
theorem C4_fixed_step_motion (sq : ℚ → ℚ) (s : AlienGrid2.GridState)
    (g : Vec3) (dt : ℚ) (now last : ℤ)
    (targets : List ShootingSystem.Target)
    (p : ShootingSystem.Projectile)
    (hg : s.group = some g) (hal : ¬ s.aliens = [])
    (hch : AlienGrid2.needsDirectionChange g s = false)
    (hact : p.isActive = true)
    (hexp : ¬ ShootingSystem.projectileLifetime < now - p.createdAt)
    (hmiss : ShootingSystem.firstHit targets
        (ShootingSystem.moveProjectile p).pos = none) :
    (AlienGrid2.update sq s dt).1.group
        = some ⟨g.x + s.direction * s.moveSpeed, g.y, g.z⟩ ∧
    (ShootingSystem.update dt now targets ⟨last, [p]⟩).1.projectiles
        = [ShootingSystem.moveProjectile p] ∧
    (ShootingSystem.moveProjectile p).pos
        = p.pos.add (p.dir.scale ShootingSystem.projectileSpeed) := by
  refine ⟨?_, ?_, rfl⟩
  · simp [AlienGrid2.update, hg, hal, hch]
  · simp [ShootingSystem.update, ShootingSystem.updateGo, hact, hexp,
      hmiss]

/-- C4 witness: the fixed-step law applied at the one-survivor grid
and a fresh projectile, with deltaTime 7. -/
theorem C4_fixed_step_motion_witness :
    (AlienGrid2.update sinZero gOneAlive 7).1.group
        = some ⟨(gOneAlive.group.getD ⟨0, 0, 0⟩).x
                  + gOneAlive.direction * gOneAlive.moveSpeed,
                (gOneAlive.group.getD ⟨0, 0, 0⟩).y,
                (gOneAlive.group.getD ⟨0, 0, 0⟩).z⟩ ∧
    (ShootingSystem.update 7 0 [] ⟨0, [pC7]⟩).1.projectiles
        = [ShootingSystem.moveProjectile pC7] ∧
    (ShootingSystem.moveProjectile pC7).pos
        = pC7.pos.add (pC7.dir.scale ShootingSystem.projectileSpeed) :=
  C4_fixed_step_motion sinZero gOneAlive (gOneAlive.group.getD ⟨0, 0, 0⟩)
    7 0 0 [] pC7 (by with_unfolding_all decide)
    (by with_unfolding_all decide) (by with_unfolding_all decide)
    rfl (by decide) rfl

/-- C5 counterexample: in the cycle-counted variant a reversal event
(accumulated travel 9.98 + step 0.02 reaches the limit 10) inverts
the direction and drops the formation, but leaves the sweep speed
exactly as it was — the claim's "speed strictly increases ... in
either variant" fails here. -/
theorem C5_cycle_reversal_keeps_speed :
    AlienGrid3.reversalAfterMove gCycEdge = true ∧
    (AlienGrid3.update sinZero gCycEdge 1).1.direction
        = -gCycEdge.direction ∧
    (AlienGrid3.update sinZero gCycEdge 1).1.moveSpeed
        = gCycEdge.moveSpeed := by
  refine ⟨?_, ?_, ?_⟩ <;> with_unfolding_all decide

/-- C5 amended: on a reversal, both variants invert the direction and
drop the whole formation by their fixed `dropDistance`; the
boundary-based variant additionally multiplies the sweep speed by
1.02 — a strict increase whenever the speed is positive — while the
cycle-counted variant counts the descent, resets its travel
accumulator and keeps the speed unchanged. -/
theorem C5_reversal_effects (sq : ℚ → ℚ) (s : AlienGrid2.GridState)
    (g : Vec3) (dt : ℚ) (s3 : AlienGrid3.GridState) (g3 : Vec3)
    (dt3 : ℚ)
    (hg : s.group = some g) (hal : ¬ s.aliens = [])
    (hch : AlienGrid2.needsDirectionChange g s = true)
    (hsp : 0 < s.moveSpeed)
    (hg3 : s3.group = some g3) (hal3 : ¬ s3.aliens = [])
    (hdc : s3.dropCount < AlienGrid3.maxDrops)
    (hrev : AlienGrid3.reversalAfterMove s3 = true) :
    (AlienGrid2.update sq s dt).1.direction = -s.direction ∧
    (AlienGrid2.update sq s dt).1.group
        = some ⟨g.x, g.y - AlienGrid2.dropDistance, g.z⟩ ∧
    (AlienGrid2.update sq s dt).1.moveSpeed = s.moveSpeed * (51/50) ∧
    s.moveSpeed < (AlienGrid2.update sq s dt).1.moveSpeed ∧
    (AlienGrid3.update sq s3 dt3).1.direction = -s3.direction ∧
    (AlienGrid3.update sq s3 dt3).1.group
        = some ⟨g3.x + s3.direction * s3.moveSpeed,
                g3.y - AlienGrid3.dropDistance, g3.z⟩ ∧
    (AlienGrid3.update sq s3 dt3).1.dropCount = s3.dropCount + 1 ∧
    (AlienGrid3.update sq s3 dt3).1.currentHorizontalPosition = 0 ∧
    (AlienGrid3.update sq s3 dt3).1.moveSpeed = s3.moveSpeed := by
  have hrev2 : AlienGrid3.horizontalLimit ≤
      |s3.currentHorizontalPosition + s3.direction * s3.moveSpeed| := by
    simpa [AlienGrid3.reversalAfterMove] using hrev
  have hdc2 : ¬ AlienGrid3.maxDrops ≤ s3.dropCount := Nat.not_le.mpr hdc
  have key : (AlienGrid2.update sq s dt).1.moveSpeed
      = s.moveSpeed * (51/50) := by
    simp [AlienGrid2.update, hg, hal, hch]
  refine ⟨?_, ?_, key, ?_, ?_, ?_, ?_, ?_, ?_⟩
  · simp [AlienGrid2.update, hg, hal, hch]
  · simp [AlienGrid2.update, hg, hal, hch]
  · rw [key]
    exact lt_mul_of_one_lt_right hsp (by norm_num)
  · simp [AlienGrid3.update, hg3, hal3, hdc2, hrev2]
  · simp [AlienGrid3.update, hg3, hal3, hdc2, hrev2]
  · simp [AlienGrid3.update, hg3, hal3, hdc2, hrev2]
  · simp [AlienGrid3.update, hg3, hal3, hdc2, hrev2]
  · simp [AlienGrid3.update, hg3, hal3, hdc2, hrev2]

/-- C5 witness: the reversal law applied to the just-spawned
boundary-variant wave (whose extent already crosses the boundary) and
to the cycle-variant grid at its travel limit. -/
theorem C5_reversal_effects_witness :
    (AlienGrid2.update sinZero waveGrid 1).1.direction
        = -waveGrid.direction ∧
    (AlienGrid2.update sinZero waveGrid 1).1.group
        = some ⟨(waveGrid.group.getD ⟨0, 0, 0⟩).x,
                (waveGrid.group.getD ⟨0, 0, 0⟩).y
                  - AlienGrid2.dropDistance,
                (waveGrid.group.getD ⟨0, 0, 0⟩).z⟩ ∧
    (AlienGrid2.update sinZero waveGrid 1).1.moveSpeed
        = waveGrid.moveSpeed * (51/50) ∧
    waveGrid.moveSpeed < (AlienGrid2.update sinZero waveGrid 1).1.moveSpeed ∧
    (AlienGrid3.update sinZero gCycEdge 1).1.direction
        = -gCycEdge.direction ∧
    (AlienGrid3.update sinZero gCycEdge 1).1.group
        = some ⟨(gCycEdge.group.getD ⟨0, 0, 0⟩).x
                  + gCycEdge.direction * gCycEdge.moveSpeed,
                (gCycEdge.group.getD ⟨0, 0, 0⟩).y
                  - AlienGrid3.dropDistance,
                (gCycEdge.group.getD ⟨0, 0, 0⟩).z⟩ ∧
    (AlienGrid3.update sinZero gCycEdge 1).1.dropCount
        = gCycEdge.dropCount + 1 ∧
    (AlienGrid3.update sinZero gCycEdge 1).1.currentHorizontalPosition
        = 0 ∧
    (AlienGrid3.update sinZero gCycEdge 1).1.moveSpeed
        = gCycEdge.moveSpeed :=
  C5_reversal_effects sinZero waveGrid (waveGrid.group.getD ⟨0, 0, 0⟩) 1
    gCycEdge (gCycEdge.group.getD ⟨0, 0, 0⟩) 1
    (by with_unfolding_all decide) (by with_unfolding_all decide)
    (by with_unfolding_all decide) (by with_unfolding_all decide)
    (by with_unfolding_all decide) (by with_unfolding_all decide)
    (by decide) (by with_unfolding_all decide)

/-- A single boundary-variant `update` never lowers a nonnegative
sweep speed: it either keeps it or multiplies it by 1.02. -/
theorem update_speed_step (sq : ℚ → ℚ) (s : AlienGrid2.GridState)
    (d : ℚ) (h : 0 ≤ s.moveSpeed) :
    s.moveSpeed ≤ (AlienGrid2.update sq s d).1.moveSpeed ∧
    0 ≤ (AlienGrid2.update sq s d).1.moveSpeed := by
  cases hg : s.group with
  | none => simp [AlienGrid2.update, hg, h]
  | some g =>
    by_cases hal : s.aliens = []
    · simp [AlienGrid2.update, hg, hal, h]
    · by_cases hch : AlienGrid2.needsDirectionChange g s = true
      · have key : (AlienGrid2.update sq s d).1.moveSpeed
            = s.moveSpeed * (51/50) := by
          simp [AlienGrid2.update, hg, hal, hch]
        rw [key]
        constructor
        · exact le_mul_of_one_le_right h (by norm_num)
        · positivity
      · have key : (AlienGrid2.update sq s d).1.moveSpeed
            = s.moveSpeed := by
          simp only [Bool.not_eq_true] at hch
          simp [AlienGrid2.update, hg, hal, hch]
        rw [key]
        exact ⟨le_refl _, h⟩

/-- C6 counterexample: within wave 1, two `update` calls (each a
reversal, ramping the speed to (3/200)·1.02²) followed by one
`destroyAlien` leave the sweep speed strictly LOWER than before the
kill: the kill recomputes the speed from the base formula
`baseSpeed · multiplier · (1 + kills · 0.02)` = (3/200)·1.02,
discarding the reversal ramp — the claimed monotonic non-decrease
across interleavings of update and destroy fails. -/
theorem C6_kill_after_reversals_drops_speed :
    (AlienGrid2.destroyAlien gTwoRev 0 0).2.moveSpeed
        < gTwoRev.moveSpeed := by
  with_unfolding_all decide

/-- C6 amended: the sweep speed is monotonically non-decreasing
across any sequence of `update` calls alone (each reversal multiplies
it by 1.02, other ticks keep it); the interleaved-kill half of the
original invariant is what fails. -/
theorem C6_speed_monotone_under_updates (sq : ℚ → ℚ) (dts : List ℚ)
    (s : AlienGrid2.GridState) (h : 0 ≤ s.moveSpeed) :
    s.moveSpeed
      ≤ (dts.foldl (fun t d => (AlienGrid2.update sq t d).1) s).moveSpeed := by
  induction dts generalizing s with
  | nil => exact le_refl _
  | cons d rest ih =>
    have step := update_speed_step sq s d h
    calc s.moveSpeed ≤ (AlienGrid2.update sq s d).1.moveSpeed := step.1
      _ ≤ _ := by
          simpa using ih (AlienGrid2.update sq s d).1 step.2

/-- C6 witness: across three consecutive updates of the freshly
spawned wave the speed never decreases. -/
theorem C6_speed_monotone_under_updates_witness :
    waveGrid.moveSpeed
      ≤ (([1, 1, 1] : List ℚ).foldl
          (fun t d => (AlienGrid2.update sinZero t d).1)
          waveGrid).moveSpeed :=
  C6_speed_monotone_under_updates sinZero [1, 1, 1] waveGrid
    (by with_unfolding_all decide)

/-- C2: two consecutive frame-loop ticks on a playing game whose wave
has just been fully cleared (live count 0), both inside the 1500 ms
spawn delay, increment the wave number TWICE and schedule TWO deferred
spawns — the code runs `onWaveComplete` on every tick while the live
count is 0, not once per cleared wave. -/
theorem C2_wave_increments_every_tick_while_cleared :
    AlienGrid2.getAliveCount gmCleared.grid = 0 ∧
    (GameManager.gameLoop woZero sinZero 100000 (1/60) gmCleared).wave
        = gmCleared.wave + 1 ∧
    (GameManager.gameLoop woZero sinZero 100016 (1/60)
        (GameManager.gameLoop woZero sinZero 100000 (1/60)
          gmCleared)).wave
        = gmCleared.wave + 2 ∧
    (GameManager.gameLoop woZero sinZero 100016 (1/60)
        (GameManager.gameLoop woZero sinZero 100000 (1/60)
          gmCleared)).pendingWaveSpawns
        = [101500, 101516] := by
  refine ⟨?_, ?_, ?_, ?_⟩ <;> with_unfolding_all decide
